import Mathlib

/-!
Verification of the competitor-hunter extraction pipeline.

Shallow embedding of:
- `src/competitor_hunter/infrastructure/llm/extractor.py` (token-budget
  truncation and the schema-constrained extraction call),
- `src/competitor_hunter/core/graph.py` (pipeline state, scrape node,
  extract node, continuation gate),
- `src/competitor_hunter/infrastructure/browser/crawler.py` (the
  auto-scroll loop).

Python `str` values are modelled as lists of code points (`PyStr`); Python
string slicing `s[:n]` is `List.take n`, `s[-n:]` (for `0 < n ≤ len s`) is
`List.drop (len s - n)`. Python truthiness of an `Optional[str]` field is
`none` ↦ falsy, `some s` ↦ truthy iff `s` is nonempty.
-/

/-- Python `str` as a sequence of code points. -/
abbrev PyStr := List Char

/-- Coerce a Lean string literal to the `PyStr` model. -/
def pyStr (s : String) : PyStr := s.data

/-- Python truthiness of an `Optional[str]` value: `None` and `""` are falsy. -/
def pyTruthy : Option PyStr → Bool
  | none => false
  | some s => !s.isEmpty

/-- Boolean substring containment on code-point lists: Python's `pat in s`. -/
def pyContains (s pat : PyStr) : Bool :=
  if pat.isPrefixOf s then true
  else
    match s with
    | [] => false
    | _ :: t => pyContains t pat

/-- Python `str.lower()` restricted to the ASCII range used by the source's
provider markers (`"api"`, `"openai"`). -/
def pyLower (s : PyStr) : PyStr := s.map Char.toLower

/-! ## Constants from `extractor.py` -/

/-- `CHARS_PER_TOKEN = 4` (extractor.py line 15). -/
def CHARS_PER_TOKEN : Nat := 4

/-- `MAX_TOKENS = 15000` (extractor.py line 16). -/
def MAX_TOKENS : Nat := 15000

/-- `TRUNCATE_CHARS = MAX_TOKENS * CHARS_PER_TOKEN` (extractor.py line 17). -/
def TRUNCATE_CHARS : Nat := MAX_TOKENS * CHARS_PER_TOKEN

/-- `keep_chars = int(TRUNCATE_CHARS * 0.4)` (extractor.py line 94).
IEEE-754 double arithmetic gives `60000 * 0.4 = 24000.0` exactly after
rounding, so `int(...)` is `24000`. -/
def KEEP_CHARS : Nat := 24000

/-- The elision marker inserted between head and tail segments
(extractor.py line 104). -/
def ELISION_MARKER : PyStr := pyStr "[... content truncated ...]"

/-- `"\n\n"`, the joiner around the elision marker in the f-string
`f"{header}\n\n[... content truncated ...]\n\n{footer}"`. -/
def NL2 : PyStr := pyStr "\n\n"

/-- `CompetitorExtractor._truncate_content` (extractor.py lines 71-111),
parameterised by the token counter `ct` standing for
`self._count_tokens` (a call into the external tiktoken encoder):
return the content unchanged when within the token budget; above the
budget, prefix-cut to `TRUNCATE_CHARS` when the character length is within
`TRUNCATE_CHARS`, otherwise keep the first and last `KEEP_CHARS` characters
joined by the elision marker. -/
def _truncate_content (ct : PyStr → Nat) (markdown_content : PyStr) : PyStr :=
  let token_count := ct markdown_content
  if token_count ≤ MAX_TOKENS then markdown_content
  else
    let total_chars := markdown_content.length
    if total_chars ≤ TRUNCATE_CHARS then
      markdown_content.take TRUNCATE_CHARS
    else
      let header := markdown_content.take KEEP_CHARS
      let footer := markdown_content.drop (markdown_content.length - KEEP_CHARS)
      header ++ NL2 ++ ELISION_MARKER ++ NL2 ++ footer

/-- Modelled from the spec: `CompetitorExtractor._count_tokens` delegates to
the external tiktoken encoder (`self.encoding.encode`), whose code is not
part of this repository; the spec fixes the estimation profile to the
source's `CHARS_PER_TOKEN` ratio ("a fixed characters-per-token ratio
(4:1)"), so the estimated token count is the character length divided by 4. -/
def count_tokens_spec (text : PyStr) : Nat := text.length / CHARS_PER_TOKEN

/-! ## Data model (`core/models.py`) -/

/-- `billing_cycle`: the closed `Literal["monthly", "yearly", "one-time",
"custom"]` enumeration of `PricingTier` (models.py line 30). -/
inductive BillingCycle
  | monthly | yearly | oneTime | custom
deriving DecidableEq, Repr

/-- `PricingTier` (models.py lines 10-34): `currency` defaults to `"USD"`. -/
structure PricingTier where
  name : PyStr
  price : PyStr
  currency : PyStr := pyStr "USD"
  billing_cycle : BillingCycle
deriving DecidableEq, Repr

/-- `CompetitorProduct` (models.py lines 37-68). The `last_updated` field
(a wall-clock timestamp defaulting to `datetime.now()`) is an effectful
default with no bearing on any claim and is omitted from the embedding. -/
structure CompetitorProduct where
  product_name : PyStr
  url : PyStr
  pricing_tiers : List PricingTier := []
  core_features : List PyStr := []
  summary : PyStr := pyStr ""
deriving DecidableEq, Repr

/-! ## Extraction call (`extractor.py` lines 165-233) -/

/-- Outcome of `self.structured_llm.ainvoke(messages)`: the external LLM
call either returns a schema-bound `CompetitorProduct`, raises a pydantic
`ValidationError` (carrying its rendered message `str(e)`), or raises some
other exception (carrying `str(e)`). -/
inductive LLMOutcome
  | ok (product : CompetitorProduct)
  | validationError (msg : PyStr)
  | exc (msg : PyStr)
deriving DecidableEq, Repr

/-- A raised Python exception as `extract_from_markdown` surfaces it: its
type (`ValueError` vs bare `Exception`), its message, and the `from e`
cause chain (recorded as the original exception's message). -/
inductive PyError
  | valueError (msg : PyStr) (cause : PyStr)
  | exception (msg : PyStr) (cause : PyStr)
deriving DecidableEq, Repr

/-- `str(e)` of a surfaced error: its message. -/
def PyError.msg : PyError → PyStr
  | .valueError m _ => m
  | .exception m _ => m

/-- The `from e` cause attached to a surfaced error. -/
def PyError.cause : PyError → PyStr
  | .valueError _ c => c
  | .exception _ c => c

/-- `CompetitorExtractor.extract_from_markdown` (extractor.py lines
165-233), parameterised by the token counter `ct` and by the LLM call
`llm` (the outcome of `structured_llm.ainvoke` on the processed content):
truncate the content, invoke the LLM, overwrite `result.url` with
`source_url` on success; on a `ValidationError` raise
`ValueError("Pydantic validation error during extraction: ...") from e`;
on any other exception raise `ValueError("OpenAI API error: ...") from e`
when `str(e).lower()` contains `"api"` or `"openai"`, otherwise raise
`Exception("LLM extraction failed for URL ...") from e`. -/
def extract_from_markdown (ct : PyStr → Nat) (llm : PyStr → LLMOutcome)
    (markdown_content source_url : PyStr) : Except PyError CompetitorProduct :=
  let processed_content := _truncate_content ct markdown_content
  match llm processed_content with
  | .ok result => .ok { result with url := source_url }
  | .validationError e =>
      .error (.valueError (pyStr "Pydantic validation error during extraction: " ++ e) e)
  | .exc e =>
      let error_msg := pyStr "LLM extraction failed for URL " ++ source_url ++ pyStr ": " ++ e
      if pyContains (pyLower e) (pyStr "api") || pyContains (pyLower e) (pyStr "openai") then
        .error (.valueError (pyStr "OpenAI API error: " ++ e) e)
      else
        .error (.exception error_msg e)

/-! ## Pipeline state and nodes (`core/graph.py`) -/

/-- `AgentState` (graph.py lines 14-32): the `TypedDict` threaded through
the workflow. -/
structure AgentState where
  url : PyStr
  scraped_content : Option PyStr
  product : Option CompetitorProduct
  error : Option PyStr
deriving DecidableEq, Repr

/-- The initial state handed to the workflow: only `url` is populated. -/
def initState (url : PyStr) : AgentState :=
  { url := url, scraped_content := none, product := none, error := none }

/-- Outcome of `browser_service.fetch_page_content(url)` inside
`node_scrape`: either the `clean_text` of a `ScrapingResult`, or a raised
exception (carrying `str(e)`). -/
inductive FetchOutcome
  | success (clean_text : PyStr)
  | failure (exc : PyStr)
deriving DecidableEq, Repr

/-- `node_scrape` (graph.py lines 85-137), parameterised by the fetch
outcome: on success set `scraped_content` and clear `error`; on an
exception set `error = f"Failed to scrape URL {url}: {str(e)}"` and clear
`scraped_content`. -/
def node_scrape (state : AgentState) (fetch : FetchOutcome) : AgentState :=
  match fetch with
  | .success clean_text =>
      { state with scraped_content := some clean_text, error := none }
  | .failure e =>
      { state with
        error := some (pyStr "Failed to scrape URL " ++ state.url ++ pyStr ": " ++ e),
        scraped_content := none }

/-- `node_extract` (graph.py lines 140-202), parameterised like
`extract_from_markdown`. Returns the updated state together with the
number of `extractor.extract_from_markdown` (LLM) calls made: `0` when the
`if not scraped_content` guard fires, `1` otherwise. -/
def node_extract (ct : PyStr → Nat) (llm : PyStr → LLMOutcome)
    (state : AgentState) : AgentState × Nat :=
  match state.scraped_content with
  | none =>
      ({ state with
         error := some (pyStr "Cannot extract: scraped_content is missing"),
         product := none }, 0)
  | some scraped_content =>
      if scraped_content.isEmpty then
        ({ state with
           error := some (pyStr "Cannot extract: scraped_content is missing"),
           product := none }, 0)
      else
        match extract_from_markdown ct llm scraped_content state.url with
        | .ok product =>
            ({ state with product := some product, error := none }, 1)
        | .error e =>
            ({ state with
               error := some (pyStr "Failed to extract product information from "
                 ++ state.url ++ pyStr ": " ++ e.msg),
               product := none }, 1)

/-- The continuation gate's decision: the `Literal["extract", "end"]`
return type of `should_continue`. -/
inductive Route
  | extract | stop
deriving DecidableEq, Repr

/-- `should_continue` (graph.py lines 205-221): terminate (`"end"`) when
`state.get("error")` is truthy, otherwise proceed (`"extract"`). -/
def should_continue (state : AgentState) : Route :=
  if pyTruthy state.error then Route.stop else Route.extract

/-- Result of one full workflow run: the final state, how many times the
extract node ran, and how many LLM calls were made. -/
structure RunResult where
  final : AgentState
  extractNodeCalls : Nat
  llmCalls : Nat
deriving Repr

/-- One execution of the compiled graph (graph.py lines 231-258):
`START → scrape → should_continue → {extract → END, END}`.
The conditional edge maps `"extract"` to the extract node and `"end"` to
`END`, so the extract node runs exactly when the gate says `"extract"`. -/
def runPipeline (ct : PyStr → Nat) (llm : PyStr → LLMOutcome)
    (url : PyStr) (fetch : FetchOutcome) : RunResult :=
  let s1 := node_scrape (initState url) fetch
  match should_continue s1 with
  | .stop => ⟨s1, 0, 0⟩
  | .extract =>
      let r := node_extract ct llm s1
      ⟨r.1, 1, r.2⟩

/-! ## Auto-scroll loop (`crawler.py` lines 127-156) -/

/-- One observable browser action performed by `_auto_scroll`: a
`document.body.scrollHeight` read, a scroll to the bottom, an
`asyncio.sleep` (in milliseconds), or the final scroll back to the top. -/
inductive ScrollAct
  | readHeight (v : Nat)
  | scrollBottom
  | sleep (ms : Nat)
  | scrollTop
deriving DecidableEq, Repr

/-- The `for i in range(max_scrolls)` loop of `_auto_scroll`, followed by
the trailing `scrollTo(0, 0)` and `sleep(0.5)`. The page is modelled by
`h : Nat → Nat`, where `h k` is the value returned by the k-th evaluation
of `document.body.scrollHeight` (iteration `i` reads `h (2*i)` as
`previous_height` and `h (2*i+1)` as `new_height`); `i` is the current
loop index and `fuel` the number of loop iterations still permitted. -/
def _auto_scroll_from (h : Nat → Nat) (i : Nat) : Nat → List ScrollAct
  | 0 => [.scrollTop, .sleep 500]
  | fuel + 1 =>
      let previous_height := h (2 * i)
      let new_height := h (2 * i + 1)
      .readHeight previous_height :: .scrollBottom :: .sleep 1000 ::
        .readHeight new_height ::
        (if previous_height = new_height then [.scrollTop, .sleep 500]
         else _auto_scroll_from h (i + 1) fuel)

/-- `BrowserService._auto_scroll(page, max_scrolls=10)` as the trace of
browser actions it performs on a page whose successive scroll-height
readings are given by `h`. -/
def _auto_scroll (h : Nat → Nat) (max_scrolls : Nat := 10) : List ScrollAct :=
  _auto_scroll_from h 0 max_scrolls

/-- Number of scroll-to-bottom operations (loop iterations) in a trace. -/
def bottomScrolls : List ScrollAct → Nat
  | [] => 0
  | .scrollBottom :: t => bottomScrolls t + 1
  | _ :: t => bottomScrolls t

/-! ## Helper lemmas -/

/-- Above the token budget and above the character budget,
`_truncate_content` takes the head/tail-splitting branch. -/
lemma truncate_headTail (ct : PyStr → Nat) (mc : PyStr)
    (hover : MAX_TOKENS < ct mc) (hlen : TRUNCATE_CHARS < mc.length) :
    _truncate_content ct mc =
      mc.take KEEP_CHARS ++ NL2 ++ ELISION_MARKER ++ NL2
        ++ mc.drop (mc.length - KEEP_CHARS) := by
  simp [_truncate_content, Nat.not_le.mpr hover, Nat.not_le.mpr hlen]

/-- Above the token budget but within the character budget,
`_truncate_content` takes the simple prefix-cut branch. -/
lemma truncate_prefixCut (ct : PyStr → Nat) (mc : PyStr)
    (hover : MAX_TOKENS < ct mc) (hlen : mc.length ≤ TRUNCATE_CHARS) :
    _truncate_content ct mc = mc.take TRUNCATE_CHARS := by
  simp [_truncate_content, Nat.not_le.mpr hover, hlen]

/-- The head/tail-split output has exactly `2 * KEEP_CHARS + 31`
characters (24000 + 2 + 27 + 2 + 24000 = 48031). -/
lemma truncate_headTail_length (ct : PyStr → Nat) (mc : PyStr)
    (hover : MAX_TOKENS < ct mc) (hlen : TRUNCATE_CHARS < mc.length) :
    (_truncate_content ct mc).length = 48031 := by
  have h1 : NL2.length = 2 := rfl
  have h2 : ELISION_MARKER.length = 27 := rfl
  have hK : KEEP_CHARS ≤ mc.length := by
    unfold KEEP_CHARS
    unfold TRUNCATE_CHARS MAX_TOKENS CHARS_PER_TOKEN at hlen
    omega
  rw [truncate_headTail ct mc hover hlen]
  simp only [List.length_append, List.length_take, List.length_drop, h1, h2]
  unfold KEEP_CHARS
  unfold TRUNCATE_CHARS MAX_TOKENS CHARS_PER_TOKEN at hlen
  omega

/-- Token estimate of a replicated character, kept general so that kernel
checking never evaluates the length of a long concrete list. -/
lemma count_tokens_spec_replicate (n : Nat) (a : Char) :
    count_tokens_spec (List.replicate n a) = n / 4 := by
  unfold count_tokens_spec CHARS_PER_TOKEN
  rw [List.length_replicate]

/-! ## Claim theorems -/

/-- Claim C3: for every token counter and every input whose estimated
token count is at or below `MAX_TOKENS`, `_truncate_content` returns the
input unchanged. -/
theorem truncate_within_budget_identity (ct : PyStr → Nat)
    (markdown_content : PyStr)
    (h : ct markdown_content ≤ MAX_TOKENS) :
    _truncate_content ct markdown_content = markdown_content := by
  simp [_truncate_content, h]

/-- Witness for C3: a short concrete input is returned unchanged. -/
theorem truncate_within_budget_identity_witness :
    count_tokens_spec (pyStr "hello") ≤ MAX_TOKENS
    ∧ _truncate_content count_tokens_spec (pyStr "hello") = pyStr "hello" :=
  ⟨by decide,
   truncate_within_budget_identity count_tokens_spec (pyStr "hello") (by decide)⟩

/-- Claim C9: when the token count exceeds the ceiling but the character
length is within `TRUNCATE_CHARS`, the prefix cut `content[:TRUNCATE_CHARS]`
is a no-op and the input is returned unchanged. -/
theorem truncate_prefix_branch_noop (ct : PyStr → Nat)
    (markdown_content : PyStr)
    (hover : MAX_TOKENS < ct markdown_content)
    (hlen : markdown_content.length ≤ TRUNCATE_CHARS) :
    _truncate_content ct markdown_content = markdown_content := by
  rw [truncate_prefixCut ct markdown_content hover hlen]
  exact List.take_of_length_le hlen

/-- Witness for C9: a tokenizer reporting 20000 tokens on a 3-character
input triggers the truncation path, which returns the input unchanged. -/
theorem truncate_prefix_branch_noop_witness :
    MAX_TOKENS < (fun _ : PyStr => 20000) (pyStr "abc")
    ∧ (pyStr "abc").length ≤ TRUNCATE_CHARS
    ∧ _truncate_content (fun _ => 20000) (pyStr "abc") = pyStr "abc" :=
  ⟨by decide, by decide,
   truncate_prefix_branch_noop (fun _ => 20000) (pyStr "abc") (by decide) (by decide)⟩

/-- Claim C5: above the token ceiling, the output is exactly the first
`KEEP_CHARS` characters, the elision marker joined with `"\n\n"`, and the
last `KEEP_CHARS` characters when the input exceeds the character budget,
and exactly the prefix cut to `TRUNCATE_CHARS` otherwise. -/
theorem truncate_over_budget_shape (ct : PyStr → Nat)
    (markdown_content : PyStr)
    (hover : MAX_TOKENS < ct markdown_content) :
    (TRUNCATE_CHARS < markdown_content.length →
      _truncate_content ct markdown_content =
        markdown_content.take KEEP_CHARS ++ NL2 ++ ELISION_MARKER ++ NL2
          ++ markdown_content.drop (markdown_content.length - KEEP_CHARS))
    ∧ (markdown_content.length ≤ TRUNCATE_CHARS →
      _truncate_content ct markdown_content = markdown_content.take TRUNCATE_CHARS) :=
  ⟨fun hlen => truncate_headTail ct markdown_content hover hlen,
   fun hlen => truncate_prefixCut ct markdown_content hover hlen⟩

/-- Witness for C5: the prefix-cut branch evaluated on a concrete
2-character input under a tokenizer reporting 99999 tokens. -/
theorem truncate_over_budget_shape_witness :
    MAX_TOKENS < (fun _ : PyStr => 99999) (pyStr "xy")
    ∧ (pyStr "xy").length ≤ TRUNCATE_CHARS
    ∧ _truncate_content (fun _ => 99999) (pyStr "xy") = (pyStr "xy").take TRUNCATE_CHARS :=
  ⟨by decide, by decide,
   (truncate_over_budget_shape (fun _ => 99999) (pyStr "xy") (by decide)).2 (by decide)⟩

/-- Claim C4: under the spec's 4-characters-per-token estimation, every
input over the token ceiling yields a truncation whose estimated token
count is at most the input's, and the output contains the literal elision
marker whenever the head/tail branch (character length over the character
budget) was taken. -/
theorem truncate_tokens_bound (markdown_content : PyStr)
    (hover : MAX_TOKENS < count_tokens_spec markdown_content) :
    count_tokens_spec (_truncate_content count_tokens_spec markdown_content)
      ≤ count_tokens_spec markdown_content
    ∧ (TRUNCATE_CHARS < markdown_content.length →
        ∃ pre post, _truncate_content count_tokens_spec markdown_content
          = pre ++ ELISION_MARKER ++ post) := by
  have hlen : TRUNCATE_CHARS < markdown_content.length := by
    unfold count_tokens_spec CHARS_PER_TOKEN MAX_TOKENS at hover
    unfold TRUNCATE_CHARS MAX_TOKENS CHARS_PER_TOKEN
    omega
  have hc : ∀ s : PyStr, count_tokens_spec s = s.length / 4 := fun _ => rfl
  constructor
  · have htr := truncate_headTail_length count_tokens_spec markdown_content hover hlen
    rw [hc, hc, htr]
    rw [hc] at hover
    unfold MAX_TOKENS at hover
    omega
  · intro _
    refine ⟨markdown_content.take KEEP_CHARS ++ NL2,
      NL2 ++ markdown_content.drop (markdown_content.length - KEEP_CHARS), ?_⟩
    rw [truncate_headTail count_tokens_spec markdown_content hover hlen]
    simp [List.append_assoc]

/-- Witness for C4: a 60004-character input is over the 15000-token
ceiling and its truncation's token count is bounded by the input's. -/
theorem truncate_tokens_bound_witness :
    MAX_TOKENS < count_tokens_spec (List.replicate 60004 'a')
    ∧ count_tokens_spec (_truncate_content count_tokens_spec (List.replicate 60004 'a'))
        ≤ count_tokens_spec (List.replicate 60004 'a') := by
  have h : MAX_TOKENS < count_tokens_spec (List.replicate 60004 'a') := by
    rw [count_tokens_spec_replicate 60004 'a']
    norm_num [MAX_TOKENS]
  exact ⟨h, (truncate_tokens_bound (List.replicate 60004 'a') h).1⟩

/-- Claim C6: every successful extraction call returns a record whose
`url` field equals the caller-supplied `source_url`, regardless of the URL
the model produced. -/
theorem extract_url_overwritten (ct : PyStr → Nat) (llm : PyStr → LLMOutcome)
    (markdown_content source_url : PyStr) (result : CompetitorProduct)
    (h : extract_from_markdown ct llm markdown_content source_url = .ok result) :
    result.url = source_url := by
  cases hllm : llm (_truncate_content ct markdown_content) with
  | ok p =>
      simp only [extract_from_markdown, hllm, Except.ok.injEq] at h
      rw [← h]
  | validationError e =>
      simp [extract_from_markdown, hllm] at h
  | exc e =>
      simp only [extract_from_markdown, hllm] at h
      split at h <;> simp at h

/-- Witness for C6: a model answer carrying the wrong URL is overwritten
with the caller-supplied URL. -/
theorem extract_url_overwritten_witness :
    extract_from_markdown (fun _ => 0)
        (fun _ => LLMOutcome.ok ⟨pyStr "P", pyStr "https://model.example", [], [], pyStr ""⟩)
        (pyStr "md") (pyStr "https://real.example")
      = Except.ok ⟨pyStr "P", pyStr "https://real.example", [], [], pyStr ""⟩
    ∧ (⟨pyStr "P", pyStr "https://real.example", [], [], pyStr ""⟩ : CompetitorProduct).url
      = pyStr "https://real.example" := by
  have h : extract_from_markdown (fun _ => 0)
      (fun _ => LLMOutcome.ok ⟨pyStr "P", pyStr "https://model.example", [], [], pyStr ""⟩)
      (pyStr "md") (pyStr "https://real.example")
      = Except.ok ⟨pyStr "P", pyStr "https://real.example", [], [], pyStr ""⟩ := rfl
  exact ⟨h, extract_url_overwritten _ _ _ _ _ h⟩

/-- Claim C8: a pydantic `ValidationError` surfaces as a `ValueError`
naming a validation failure, a transport/API failure (recognised by the
`"api"`/`"openai"` markers in the lowercased error text) surfaces as a
`ValueError` naming an API error, any other failure surfaces as a bare
`Exception`; all three attach the underlying cause, none returns success,
and the validation-error report is distinct from the API-error report. -/
theorem extract_error_taxonomy (ct : PyStr → Nat) (llm : PyStr → LLMOutcome)
    (markdown_content source_url : PyStr) :
    (∀ e, llm (_truncate_content ct markdown_content) = .validationError e →
      extract_from_markdown ct llm markdown_content source_url
        = .error (.valueError (pyStr "Pydantic validation error during extraction: " ++ e) e))
    ∧ (∀ e, llm (_truncate_content ct markdown_content) = .exc e →
      (pyContains (pyLower e) (pyStr "api") || pyContains (pyLower e) (pyStr "openai")) = true →
      extract_from_markdown ct llm markdown_content source_url
        = .error (.valueError (pyStr "OpenAI API error: " ++ e) e))
    ∧ (∀ e, llm (_truncate_content ct markdown_content) = .exc e →
      (pyContains (pyLower e) (pyStr "api") || pyContains (pyLower e) (pyStr "openai")) = false →
      extract_from_markdown ct llm markdown_content source_url
        = .error (.exception
            (pyStr "LLM extraction failed for URL " ++ source_url ++ pyStr ": " ++ e) e))
    ∧ (∀ e e', PyError.valueError (pyStr "Pydantic validation error during extraction: " ++ e) e
        ≠ PyError.valueError (pyStr "OpenAI API error: " ++ e') e') := by
  refine ⟨?_, ?_, ?_, ?_⟩
  · intro e he
    simp [extract_from_markdown, he]
  · intro e he hm
    simp [extract_from_markdown, he, hm]
  · intro e he hm
    simp [extract_from_markdown, he, hm]
  · intro e e' h
    have h2 := congrArg (fun er => er.msg.head?) h
    simp only [PyError.msg] at h2
    rw [show (pyStr "Pydantic validation error during extraction: " ++ e).head? = some 'P' from rfl,
        show (pyStr "OpenAI API error: " ++ e').head? = some 'O' from rfl] at h2
    exact absurd h2 (by decide)

/-- Witness for C8: a concrete validation failure surfaces as the typed
`ValueError` with its cause attached. -/
theorem extract_error_taxonomy_witness :
    (fun _ : PyStr => LLMOutcome.validationError (pyStr "bad shape"))
        (_truncate_content (fun _ => 0) (pyStr "md")) = .validationError (pyStr "bad shape")
    ∧ extract_from_markdown (fun _ => 0)
        (fun _ => LLMOutcome.validationError (pyStr "bad shape")) (pyStr "md") (pyStr "u")
      = .error (.valueError
          (pyStr "Pydantic validation error during extraction: " ++ pyStr "bad shape")
          (pyStr "bad shape")) :=
  ⟨rfl,
   (extract_error_taxonomy (fun _ => 0)
      (fun _ => LLMOutcome.validationError (pyStr "bad shape"))
      (pyStr "md") (pyStr "u")).1 (pyStr "bad shape") rfl⟩

/-- Claim C1: for every post-fetch state, the continuation gate terminates
the run exactly when the error field is set; with error set neither the
extract node nor the LLM runs, and with error unset the gate proceeds to
extraction. -/
theorem gate_terminates_iff_error (ct : PyStr → Nat) (llm : PyStr → LLMOutcome)
    (url : PyStr) (fetch : FetchOutcome) :
    (should_continue (node_scrape (initState url) fetch) = Route.stop
      ↔ (node_scrape (initState url) fetch).error.isSome)
    ∧ ((node_scrape (initState url) fetch).error.isSome →
        (runPipeline ct llm url fetch).extractNodeCalls = 0
        ∧ (runPipeline ct llm url fetch).llmCalls = 0)
    ∧ ((node_scrape (initState url) fetch).error = none →
        should_continue (node_scrape (initState url) fetch) = Route.extract) := by
  cases fetch with
  | success t =>
      simp [node_scrape, initState, should_continue, pyTruthy, runPipeline]
  | failure e =>
      have htr : ∀ u x : PyStr,
          pyTruthy (some (pyStr "Failed to scrape URL " ++ (u ++ (pyStr ": " ++ x))))
            = true := fun _ _ => rfl
      simp [node_scrape, initState, should_continue, runPipeline, htr]

/-- Witness for C1: a fetch failure with a distinctive message sets the
error field, the gate terminates, and no extraction happens. -/
theorem gate_terminates_iff_error_witness :
    (node_scrape (initState (pyStr "https://x.example"))
        (.failure (pyStr "Network error"))).error.isSome = true
    ∧ (runPipeline (fun _ => 0) (fun _ => LLMOutcome.exc (pyStr "unused"))
        (pyStr "https://x.example") (.failure (pyStr "Network error"))).extractNodeCalls = 0
    ∧ (runPipeline (fun _ => 0) (fun _ => LLMOutcome.exc (pyStr "unused"))
        (pyStr "https://x.example") (.failure (pyStr "Network error"))).llmCalls = 0 := by
  have h : (node_scrape (initState (pyStr "https://x.example"))
      (.failure (pyStr "Network error"))).error.isSome = true := rfl
  have h2 := (gate_terminates_iff_error (fun _ => 0)
      (fun _ => LLMOutcome.exc (pyStr "unused"))
      (pyStr "https://x.example") (.failure (pyStr "Network error"))).2.1 (by rw [h])
  exact ⟨h, h2.1, h2.2⟩

/-- Claim C2: after the fetch node exactly one of {scraped content set,
error set} holds, and after the extract node on a run the gate let
through, exactly one of {product set, error set} holds. -/
theorem state_mutual_exclusion (ct : PyStr → Nat) (llm : PyStr → LLMOutcome)
    (url : PyStr) (fetch : FetchOutcome) :
    ((node_scrape (initState url) fetch).scraped_content.isSome
      = !(node_scrape (initState url) fetch).error.isSome)
    ∧ (should_continue (node_scrape (initState url) fetch) = Route.extract →
        (node_extract ct llm (node_scrape (initState url) fetch)).1.product.isSome
          = !(node_extract ct llm (node_scrape (initState url) fetch)).1.error.isSome) := by
  cases fetch with
  | failure e =>
      have htr : ∀ u x : PyStr,
          pyTruthy (some (pyStr "Failed to scrape URL " ++ (u ++ (pyStr ": " ++ x))))
            = true := fun _ _ => rfl
      constructor
      · simp [node_scrape, initState]
      · intro hroute
        rw [show should_continue (node_scrape (initState url) (.failure e)) = Route.stop by
              simp [node_scrape, initState, should_continue, htr]] at hroute
        exact absurd hroute (by simp)
  | success t =>
      refine ⟨by simp [node_scrape, initState], fun _ => ?_⟩
      by_cases he : t.isEmpty
      · simp [node_extract, node_scrape, initState, he]
      · cases hx : extract_from_markdown ct llm t url with
        | ok p => simp [node_extract, node_scrape, initState, he, hx]
        | error er => simp [node_extract, node_scrape, initState, he, hx]

/-- Witness for C2: a successful fetch followed by a successful extraction
satisfies both exclusivity properties. -/
theorem state_mutual_exclusion_witness :
    ((node_scrape (initState (pyStr "u")) (.success (pyStr "# T"))).scraped_content.isSome
      = !(node_scrape (initState (pyStr "u")) (.success (pyStr "# T"))).error.isSome)
    ∧ (node_extract (fun _ => 0)
        (fun _ => LLMOutcome.ok ⟨pyStr "T", pyStr "u", [], [], pyStr ""⟩)
        (node_scrape (initState (pyStr "u")) (.success (pyStr "# T")))).1.product.isSome
      = !(node_extract (fun _ => 0)
          (fun _ => LLMOutcome.ok ⟨pyStr "T", pyStr "u", [], [], pyStr ""⟩)
          (node_scrape (initState (pyStr "u")) (.success (pyStr "# T")))).1.error.isSome :=
  ⟨(state_mutual_exclusion (fun _ => 0)
      (fun _ => LLMOutcome.ok ⟨pyStr "T", pyStr "u", [], [], pyStr ""⟩)
      (pyStr "u") (.success (pyStr "# T"))).1,
   (state_mutual_exclusion (fun _ => 0)
      (fun _ => LLMOutcome.ok ⟨pyStr "T", pyStr "u", [], [], pyStr ""⟩)
      (pyStr "u") (.success (pyStr "# T"))).2 rfl⟩

/-- Claim C10: a fetch that succeeds with empty normalized text passes the
gate, reaches the extract node, which sets the missing-content error and
returns without invoking the LLM, yielding an error and no product. -/
theorem empty_fetch_reaches_extract_no_llm (ct : PyStr → Nat)
    (llm : PyStr → LLMOutcome) (url : PyStr) :
    (runPipeline ct llm url (.success (pyStr ""))).extractNodeCalls = 1
    ∧ (runPipeline ct llm url (.success (pyStr ""))).llmCalls = 0
    ∧ (runPipeline ct llm url (.success (pyStr ""))).final.error
        = some (pyStr "Cannot extract: scraped_content is missing")
    ∧ (runPipeline ct llm url (.success (pyStr ""))).final.product = none := by
  have he : (pyStr "").isEmpty = true := rfl
  simp [runPipeline, node_scrape, initState, should_continue, pyTruthy,
    node_extract, he]

/-- Counting scroll-to-bottom actions distributes over trace
concatenation. -/
lemma bottomScrolls_append (a b : List ScrollAct) :
    bottomScrolls (a ++ b) = bottomScrolls a + bottomScrolls b := by
  induction a with
  | nil => simp [bottomScrolls]
  | cons x t ih =>
      cases x with
      | scrollBottom => simp [bottomScrolls, ih]; omega
      | readHeight v => simp [bottomScrolls, ih]
      | sleep ms => simp [bottomScrolls, ih]
      | scrollTop => simp [bottomScrolls, ih]

/-- The scroll loop performs at most `fuel` iterations. -/
lemma auto_scroll_from_le (h : Nat → Nat) :
    ∀ (fuel i : Nat), bottomScrolls (_auto_scroll_from h i fuel) ≤ fuel := by
  intro fuel
  induction fuel with
  | zero => intro i; simp [_auto_scroll_from, bottomScrolls]
  | succ f ih =>
      intro i
      by_cases hh : h (2 * i) = h (2 * i + 1)
      · simp [_auto_scroll_from, hh, bottomScrolls]
      · have := ih (i + 1)
        simp only [_auto_scroll_from, if_neg hh, bottomScrolls]
        omega

/-- Every scroll trace ends with the scroll-back-to-top and the 0.5 s
pause. -/
lemma auto_scroll_from_ends (h : Nat → Nat) :
    ∀ (fuel i : Nat), ∃ pre,
      _auto_scroll_from h i fuel = pre ++ [ScrollAct.scrollTop, ScrollAct.sleep 500] := by
  intro fuel
  induction fuel with
  | zero => exact fun i => ⟨[], rfl⟩
  | succ f ih =>
      intro i
      by_cases hh : h (2 * i) = h (2 * i + 1)
      · exact ⟨[.readHeight (h (2 * i)), .scrollBottom, .sleep 1000,
          .readHeight (h (2 * i + 1))], by simp [_auto_scroll_from, hh]⟩
      · obtain ⟨pre, hp⟩ := ih (i + 1)
        exact ⟨[.readHeight (h (2 * i)), .scrollBottom, .sleep 1000,
          .readHeight (h (2 * i + 1))] ++ pre, by simp [_auto_scroll_from, hh, hp]⟩

/-- When the first height-stable iteration (relative to loop index `i`) is
the k-th one and there is fuel left for it, the loop performs exactly
`k + 1` iterations. -/
lemma auto_scroll_from_exit (h : Nat → Nat) :
    ∀ (k fuel i : Nat), k < fuel →
      (∀ j, j < k → h (2 * (i + j)) ≠ h (2 * (i + j) + 1)) →
      h (2 * (i + k)) = h (2 * (i + k) + 1) →
      bottomScrolls (_auto_scroll_from h i fuel) = k + 1 := by
  intro k
  induction k with
  | zero =>
      intro fuel i hk _ heq
      obtain ⟨f, rfl⟩ : ∃ f, fuel = f + 1 := ⟨fuel - 1, by omega⟩
      rw [Nat.add_zero] at heq
      simp [_auto_scroll_from, heq, bottomScrolls]
  | succ k ih =>
      intro fuel i hk hne heq
      obtain ⟨f, rfl⟩ : ∃ f, fuel = f + 1 := ⟨fuel - 1, by omega⟩
      have h0 : h (2 * i) ≠ h (2 * i + 1) := by
        have := hne 0 (Nat.succ_pos k)
        simpa using this
      have hne' : ∀ j, j < k → h (2 * ((i + 1) + j)) ≠ h (2 * ((i + 1) + j) + 1) := by
        intro j hj
        have := hne (j + 1) (by omega)
        rwa [show i + (j + 1) = (i + 1) + j by omega] at this
      have heq' : h (2 * ((i + 1) + k)) = h (2 * ((i + 1) + k) + 1) := by
        rwa [show i + (k + 1) = (i + 1) + k by omega] at heq
      have hrec := ih f (i + 1) (by omega) hne' heq'
      simp only [_auto_scroll_from, if_neg h0, bottomScrolls]
      omega

/-- Claim C7: the auto-scroll loop performs at most 10 scroll iterations
on every page, its trace always ends with the scroll back to the top, and
it exits after exactly `i + 1` iterations as soon as iteration `i` (the
first such) observes an unchanged document height. -/
theorem auto_scroll_terminates (h : Nat → Nat) :
    bottomScrolls (_auto_scroll h) ≤ 10
    ∧ (∃ pre, _auto_scroll h = pre ++ [ScrollAct.scrollTop, ScrollAct.sleep 500])
    ∧ (∀ i, i < 10 → (∀ j, j < i → h (2 * j) ≠ h (2 * j + 1)) →
        h (2 * i) = h (2 * i + 1) →
        bottomScrolls (_auto_scroll h) = i + 1) := by
  refine ⟨auto_scroll_from_le h 10 0, auto_scroll_from_ends h 10 0, ?_⟩
  intro i hi hne heq
  exact auto_scroll_from_exit h i 10 0 hi
    (by intro j hj; simpa using hne j hj) (by simpa using heq)

/-- Witness for C7: on a page whose height never changes the loop performs
exactly one scroll iteration, within the 10-iteration bound. -/
theorem auto_scroll_terminates_witness :
    bottomScrolls (_auto_scroll (fun _ => 5)) ≤ 10
    ∧ bottomScrolls (_auto_scroll (fun _ => 5)) = 0 + 1 :=
  ⟨(auto_scroll_terminates (fun _ => 5)).1,
   (auto_scroll_terminates (fun _ => 5)).2.2 0 (by omega)
     (fun j hj => absurd hj (Nat.not_lt_zero j)) rfl⟩
